import Mathlib

/-!
Shallow embedding of the per-hart CPU model of the qemu-migration repository
(TARGET_RISCV64 system build, CONFIG_USER_ONLY not defined):
  * src/target/riscv/cpu.c   — hart state, realize, reset, snapshot dump/load
  * src/hw/cpu/sifive_d_reset.c — memory-mapped reset controller
Machine words are modelled as Nat with explicit masking to 64 bits where the
C code truncates.  File I/O in dump/load is abstracted to the list of text
lines written/read, as the spec directs.
-/

/-! ## Constants from target/riscv/cpu.h and cpu_bits.h (headers not in src/).
These are the fixed numeric values of the QEMU RISC-V headers this repository
builds against; the spec describes them abstractly (misa extension bit-mask,
xlen bits, PMP table of fixed maximum size, reset vector). -/

/-- RV(x) = 1 << (x - 'A'): misa bit of extension letter I. -/
def RVI : Nat := 2 ^ 8
def RVE : Nat := 2 ^ 4
def RVM : Nat := 2 ^ 12
def RVA : Nat := 2 ^ 0
def RVF : Nat := 2 ^ 5
def RVD : Nat := 2 ^ 3
def RVC : Nat := 2 ^ 2
def RVS : Nat := 2 ^ 18
def RVU : Nat := 2 ^ 20
def RVH : Nat := 2 ^ 7
def RVB : Nat := 2 ^ 1
def RVV : Nat := 2 ^ 21

/-- xlen-determining misa bit for a 32-bit hart (TARGET_LONG_BITS = 64). -/
def RV32 : Nat := 2 ^ 62
/-- xlen-determining misa bit for a 64-bit hart. -/
def RV64 : Nat := 2 ^ 63

def MSTATUS_MIE : Nat := 0x8
def MSTATUS_MPRV : Nat := 0x20000

/-- Machine privilege level PRV_M. -/
def PRV_M : Nat := 3

/-- RISCV_EXCP_NONE: the "no pending exception" index. -/
def RISCV_EXCP_NONE : Int := -1

def PRIV_VERSION_1_10_0 : Nat := 0
def PRIV_VERSION_1_11_0 : Nat := 1
def BEXT_VERSION_0_93_0 : Nat := 0
def VEXT_VERSION_0_07_1 : Nat := 0

def RISCV_FEATURE_MMU : Nat := 0
def RISCV_FEATURE_PMP : Nat := 1
def RISCV_FEATURE_EPMP : Nat := 2

def DEFAULT_RSTVEC : Nat := 0x1000

def MAX_RISCV_PMPS : Nat := 16

def RV_VLEN_MAX : Nat := 256

/-- 2^64, the modulus of target_ulong / uint64_t arithmetic. -/
def U64 : Nat := 2 ^ 64

/-- All-ones 64-bit word (the value of (target_ulong)-1). -/
def U64MAX : Nat := U64 - 1

/-! ## Data model: configuration and architectural state -/

/-- The qdev property bundle RISCVCPUConfig (cpu->cfg). -/
structure RISCVCPUConfig where
  ext_i : Bool
  ext_e : Bool
  ext_g : Bool
  ext_m : Bool
  ext_a : Bool
  ext_f : Bool
  ext_d : Bool
  ext_c : Bool
  ext_s : Bool
  ext_u : Bool
  ext_b : Bool
  ext_h : Bool
  ext_v : Bool
  priv_spec : Option String
  bext_spec : Option String
  vext_spec : Option String
  vlen : Nat
  elen : Nat
  mmu : Bool
  pmp : Bool
  epmp : Bool
  resetvec : Nat
  deriving DecidableEq, Repr

/-- The architectural register file CPURISCVState (env).  PMP raw state is
the addr registers and per-rule packed cfg bytes; pmp_rule_sa / pmp_rule_ea /
pmp_num_rules are the derived rule state that pmp.c rebuilds from them. -/
structure CPURISCVState where
  pc : Nat
  mhartid : Nat
  mstatus : Nat
  mip : Nat
  mie : Nat
  mideleg : Nat
  medeleg : Nat
  mtvec : Nat
  stvec : Nat
  mepc : Nat
  sepc : Nat
  mcause : Nat
  scause : Nat
  mtval : Nat
  stval : Nat
  mscratch : Nat
  sscratch : Nat
  satp : Nat
  load_res : Nat
  load_val : Nat
  frm : Nat
  badaddr : Nat
  guest_phys_fault_addr : Nat
  priv_ver : Nat
  bext_ver : Nat
  vext_ver : Nat
  misa : Nat
  misa_mask : Nat
  features : Nat
  priv : Nat
  virt : Nat
  resetvec : Nat
  scounteren : Nat
  mcounteren : Nat
  mfromhost : Nat
  mtohost : Nat
  timecmp : Nat
  gpr : List Nat
  fpr : List Nat
  pmp_addr : List Nat
  pmp_cfg : List Nat
  pmp_rule_sa : List Nat
  pmp_rule_ea : List Nat
  pmp_num_rules : Nat
  two_stage_lookup : Bool
  hstatus : Nat
  vsstatus : Nat
  htval : Nat
  vscause : Nat
  mtval2 : Nat
  hideleg : Nat
  hedeleg : Nat
  vstvec : Nat
  vsepc : Nat
  vsscratch : Nat
  vstval : Nat
  default_nan_mode : Bool
  deriving DecidableEq, Repr

/-- A hart: its env, its property bundle, and the CPUState-level pending
exception index. -/
structure RISCVCPU where
  env : CPURISCVState
  cfg : RISCVCPUConfig
  exception_index : Int
  deriving DecidableEq, Repr

/-- riscv_cpu_is_32bit: misa lacks the RV64 bit. -/
def riscv_cpu_is_32bit (env : CPURISCVState) : Bool :=
  ¬ (env.misa &&& RV64 ≠ 0)

/-- riscv_has_ext(env, ext). -/
def riscv_has_ext (env : CPURISCVState) (ext : Nat) : Bool :=
  (env.misa &&& ext) ≠ 0

/-- set_misa: writes misa and misa_mask together. -/
def set_misa (env : CPURISCVState) (misa : Nat) : CPURISCVState :=
  { env with misa := misa, misa_mask := misa }

/-! ## PMP csr accessors.
Modelled from the spec: pmp.c is not among the sources; §3 of the spec
describes PMP state as raw addr values plus a packed configuration byte per
rule, with a derived rule count and derived match ranges that are "always
rebuilt from addr+cfg" — a pure function of the raw arrays, recomputed after
any change.  The configuration registers pack 4 cfg bytes each
(MAX_RISCV_PMPS/4 of them, matching the loops in cpu.c). -/

/-- Modelled from the spec: derived match range of one rule, a fixed pure
function of its cfg byte and addr value (rule active iff its address-matching
mode field, bits 3..4 of cfg, is non-zero). -/
def pmp_rule_range (cfg addr : Nat) : Nat × Nat :=
  if (cfg >>> 3) &&& 3 == 0 then (0, 0) else (addr, addr)

/-- Modelled from the spec: rebuild the derived range of rule i from the raw
addr/cfg arrays (pmp_update_rule_addr). -/
def pmp_update_rule_addr (env : CPURISCVState) (i : Nat) : CPURISCVState :=
  let r := pmp_rule_range (env.pmp_cfg.getD i 0) (env.pmp_addr.getD i 0)
  { env with pmp_rule_sa := env.pmp_rule_sa.set i r.1,
             pmp_rule_ea := env.pmp_rule_ea.set i r.2 }

/-- Modelled from the spec: recount the active rules from the cfg bytes
(pmp_update_rule_nums). -/
def pmp_update_rule_nums (env : CPURISCVState) : CPURISCVState :=
  { env with pmp_num_rules :=
      ((List.range MAX_RISCV_PMPS).countP
        (fun i => (env.pmp_cfg.getD i 0 >>> 3) &&& 3 ≠ 0)) }

/-- Modelled from the spec: pmpaddr_csr_read returns the raw addr register. -/
def pmpaddr_csr_read (env : CPURISCVState) (i : Nat) : Nat :=
  env.pmp_addr.getD i 0

/-- Modelled from the spec: pmpaddr_csr_write stores the raw addr register and
rebuilds that rule's derived range. -/
def pmpaddr_csr_write (env : CPURISCVState) (i : Nat) (val : Nat) : CPURISCVState :=
  pmp_update_rule_addr { env with pmp_addr := env.pmp_addr.set i (val % U64) } i

/-- Modelled from the spec: pmpcfg_csr_read packs the 4 cfg bytes of
configuration register i. -/
def pmpcfg_csr_read (env : CPURISCVState) (i : Nat) : Nat :=
  (env.pmp_cfg.getD (4 * i) 0)
  ||| (env.pmp_cfg.getD (4 * i + 1) 0 <<< 8)
  ||| (env.pmp_cfg.getD (4 * i + 2) 0 <<< 16)
  ||| (env.pmp_cfg.getD (4 * i + 3) 0 <<< 24)

/-- Modelled from the spec: pmpcfg_csr_write unpacks 4 cfg bytes into the raw
array and rebuilds the derived ranges of the touched rules. -/
def pmpcfg_csr_write (env : CPURISCVState) (i : Nat) (val : Nat) : CPURISCVState :=
  let env := { env with pmp_cfg :=
      ((((env.pmp_cfg.set (4 * i) (val &&& 0xff)).set
          (4 * i + 1) ((val >>> 8) &&& 0xff)).set
          (4 * i + 2) ((val >>> 16) &&& 0xff)).set
          (4 * i + 3) ((val >>> 24) &&& 0xff)) }
  let env := pmp_update_rule_addr env (4 * i)
  let env := pmp_update_rule_addr env (4 * i + 1)
  let env := pmp_update_rule_addr env (4 * i + 2)
  let env := pmp_update_rule_addr env (4 * i + 3)
  pmp_update_rule_nums env

/-! ## Lifecycle: reset and set_pc (cpu.c lines 785-846) -/

/-- riscv_cpu_reset (cpu.c:821).  mcc->parent_reset touches only generic
CPUState bookkeeping outside this model.  memset(&env->pmp_state, 0, ...)
zeroes both the raw PMP arrays and the derived rule state.
env->load_res = -1 stores the all-ones 64-bit sentinel. -/
def riscv_cpu_reset (cpu : RISCVCPU) : RISCVCPU :=
  let env := cpu.env
  let env := { env with
    priv := PRV_M,
    mstatus := env.mstatus &&& (U64MAX ^^^ (MSTATUS_MIE ||| MSTATUS_MPRV)),
    mcause := 0,
    pc := env.resetvec,
    two_stage_lookup := false,
    satp := 0,
    scause := 0,
    sepc := 0,
    stvec := 0,
    mepc := 0,
    mtvec := 0,
    pmp_addr := List.replicate MAX_RISCV_PMPS 0,
    pmp_cfg := List.replicate MAX_RISCV_PMPS 0,
    pmp_rule_sa := List.replicate MAX_RISCV_PMPS 0,
    pmp_rule_ea := List.replicate MAX_RISCV_PMPS 0,
    pmp_num_rules := 0,
    load_res := U64MAX,
    default_nan_mode := true }
  { cpu with env := env, exception_index := RISCV_EXCP_NONE }

/-- riscv_cpu_set_pc (cpu.c:785). -/
def riscv_cpu_set_pc (cpu : RISCVCPU) (value : Nat) : RISCVCPU :=
  { cpu with env := { cpu.env with pc := value } }

/-- riscv_cpu_has_work (cpu.c:800), system-emulation build. -/
def riscv_cpu_has_work (cpu : RISCVCPU) : Bool :=
  (cpu.env.mip &&& cpu.env.mie) ≠ 0

/-! ## Snapshot text format: character-level helpers -/

/-- isspace characters recognised by the C library. -/
def isWsChar (c : Char) : Bool :=
  c = ' ' || c = '\t' || c = '\n' || c = '\x0b' || c = '\x0c' || c = '\r'

def isHexDigitC (c : Char) : Bool :=
  (48 ≤ c.toNat && c.toNat ≤ 57) || (97 ≤ c.toNat && c.toNat ≤ 102) ||
  (65 ≤ c.toNat && c.toNat ≤ 70)

def hexDigitVal (c : Char) : Nat :=
  if c.toNat ≤ 57 then c.toNat - 48
  else if c.toNat ≤ 70 then c.toNat - 55
  else c.toNat - 87

def skipWs : List Char → List Char
  | [] => []
  | c :: cs => if isWsChar c then skipWs cs else c :: cs

/-- Accumulate a run of hex digits. -/
def takeHex : List Char → Nat → Nat × List Char
  | [], acc => (acc, [])
  | c :: cs, acc =>
      if isHexDigitC c then takeHex cs (acc * 16 + hexDigitVal c) else (acc, c :: cs)

/-- The %lx / %x conversion of sscanf: skip whitespace, then an optional 0x/0X
followed by at least one hex digit, or a plain non-empty run of hex digits.
Fails (no assignment) when no digit is found. -/
def scanHexVal (cs0 : List Char) : Option (Nat × List Char) :=
  match skipWs cs0 with
  | [] => none
  | c :: cs =>
      if isHexDigitC c then
        match c, cs with
        | '0', 'x' :: d :: rest =>
            if isHexDigitC d then some (takeHex (d :: rest) 0)
            else some (takeHex ('0' :: cs) 0)
        | '0', 'X' :: d :: rest =>
            if isHexDigitC d then some (takeHex (d :: rest) 0)
            else some (takeHex ('0' :: cs) 0)
        | _, _ => some (takeHex (c :: cs) 0)
      else none

/-- A literal (ordinary-character) run of a sscanf format: each character must
match the next input character exactly — leading whitespace is NOT skipped. -/
def matchLit : List Char → List Char → Option (List Char)
  | [], cs => some cs
  | _ :: _, [] => none
  | t :: ts, c :: cs => if c = t then matchLit ts cs else none

/-- sscanf(line, "<tag> %lx", &v): the tag is matched literally from the first
character of the line, then one value is converted.  Returns the value iff
sscanf would return 1. -/
def scanTagHex (tag : String) (line : String) : Option Nat :=
  match matchLit tag.data line.data with
  | none => none
  | some rest =>
      match scanHexVal rest with
      | none => none
      | some (v, _) => some v

/-- A %s token: maximal non-empty run of non-whitespace characters. -/
def takeTok : List Char → List Char × List Char
  | [] => ([], [])
  | c :: cs =>
      if isWsChar c then ([], c :: cs)
      else
        let p := takeTok cs
        (c :: p.1, p.2)

/-- sscanf(line, "%s %lx", reg, &v): any whitespace-delimited tag is accepted.
Returns (tag, value) iff sscanf would return 2. -/
def scanStrHex (line : String) : Option (String × Nat) :=
  match takeTok (skipWs line.data) with
  | ([], _) => none
  | (t, rest) =>
      match scanHexVal rest with
      | none => none
      | some (v, _) => some (String.mk t, v)

def takeDec : List Char → Nat → Nat × List Char
  | [], acc => (acc, [])
  | c :: cs, acc =>
      if c.isDigit then takeDec cs (acc * 10 + (c.toNat - 48)) else (acc, c :: cs)

/-- The %d conversion restricted to the unsigned inputs that occur here. -/
def scanDecVal (cs0 : List Char) : Option (Nat × List Char) :=
  match skipWs cs0 with
  | [] => none
  | c :: cs => if c.isDigit then some (takeDec (c :: cs) 0) else none

/-- sscanf(line, "<tag>%d %lx", &j, &v), as used for the pmpaddr_/pmpcfg_
records.  Returns (index, value) iff sscanf would return 2. -/
def scanIdxHex (tag : String) (line : String) : Option (Nat × Nat) :=
  match matchLit tag.data line.data with
  | none => none
  | some r1 =>
      match scanDecVal r1 with
      | none => none
      | some (j, r2) =>
          match scanHexVal r2 with
          | none => none
          | some (v, _) => some (j, v)

/-! ## Serialisation (the DUMP_CPU_MIGRATE section of riscv_cpu_dump_state,
cpu.c lines 327-391, abstracted from its fixed host file path to the list of
lines it writes) -/

/-- %016lx of a 64-bit value, as TARGET_FMT_lx renders it. -/
def hex16 (n : Nat) : String :=
  let ds := Nat.toDigits 16 (n % U64)
  String.mk (List.replicate (16 - ds.length) '0' ++ ds)

/-- %x of a 32-bit value (unpadded). -/
def hexMin (n : Nat) : String :=
  String.mk (Nat.toDigits 16 (n % 2 ^ 32))

/-- One record of the migrate dump written as fprintf(fp, " %s " fmt "\n",
name, value): note the LEADING space. -/
def scalar_line (name : String) (body : String) : String :=
  " " ++ name ++ " " ++ body

def riscv_int_regnames : List String :=
  ["x0/zero", "x1/ra", "x2/sp", "x3/gp", "x4/tp", "x5/t0", "x6/t1",
   "x7/t2", "x8/s0", "x9/s1", "x10/a0", "x11/a1", "x12/a2", "x13/a3",
   "x14/a4", "x15/a5", "x16/a6", "x17/a7", "x18/s2", "x19/s3", "x20/s4",
   "x21/s5", "x22/s6", "x23/s7", "x24/s8", "x25/s9", "x26/s10", "x27/s11",
   "x28/t3", "x29/t4", "x30/t5", "x31/t6"]

def riscv_fpr_regnames : List String :=
  ["f0/ft0", "f1/ft1", "f2/ft2", "f3/ft3", "f4/ft4", "f5/ft5",
   "f6/ft6", "f7/ft7", "f8/fs0", "f9/fs1", "f10/fa0", "f11/fa1",
   "f12/fa2", "f13/fa3", "f14/fa4", "f15/fa5", "f16/fa6", "f17/fa7",
   "f18/fs2", "f19/fs3", "f20/fs4", "f21/fs5", "f22/fs6", "f23/fs7",
   "f24/fs8", "f25/fs9", "f26/fs10", "f27/fs11", "f28/ft8", "f29/ft9",
   "f30/ft10", "f31/ft11"]

/-- The snapshot produced for a hart: the exact sequence of lines the
DUMP_CPU_MIGRATE block writes, names padded as in the source. -/
def riscv_cpu_dump_migrate (cpu : RISCVCPU) : List String :=
  let env := cpu.env
  [scalar_line "pc      " (hex16 env.pc),
   scalar_line "mhartid " (hex16 env.mhartid),
   scalar_line "mstatus " (hex16 env.mstatus),
   scalar_line "mip     " (hex16 env.mip),
   scalar_line "mie     " (hex16 env.mie),
   scalar_line "mideleg " (hex16 env.mideleg),
   scalar_line "medeleg " (hex16 env.medeleg),
   scalar_line "mtvec   " (hex16 env.mtvec),
   scalar_line "stvec   " (hex16 env.stvec),
   scalar_line "mepc    " (hex16 env.mepc),
   scalar_line "sepc    " (hex16 env.sepc),
   scalar_line "mcause  " (hex16 env.mcause),
   scalar_line "scause  " (hex16 env.scause),
   scalar_line "mtval   " (hex16 env.mtval),
   scalar_line "stval   " (hex16 env.stval),
   scalar_line "mscratch" (hex16 env.mscratch),
   scalar_line "sscratch" (hex16 env.sscratch),
   scalar_line "satp    " (hex16 env.satp),
   scalar_line "load_res" (hex16 env.load_res),
   scalar_line "load_val" (hex16 env.load_val),
   scalar_line "frm     " (hex16 env.frm),
   scalar_line "badaddr " (hex16 env.badaddr),
   scalar_line "guest_phys_fault_addr" (hex16 env.guest_phys_fault_addr),
   scalar_line "priv_ver  " (hex16 env.priv_ver),
   scalar_line "vext_ver  " (hex16 env.vext_ver),
   scalar_line "misa      " (hex16 env.misa),
   scalar_line "misa_mask " (hex16 env.misa_mask),
   scalar_line "features  " (hexMin env.features),
   scalar_line "priv      " (hex16 env.priv),
   scalar_line "virt      " (hex16 env.virt),
   scalar_line "resetvec  " (hex16 env.resetvec),
   scalar_line "scounteren   " (hex16 env.scounteren),
   scalar_line "mcounteren  " (hex16 env.mcounteren),
   scalar_line "mfromhost " (hex16 env.mfromhost),
   scalar_line "mtohost   " (hex16 env.mtohost),
   scalar_line "timecmp   " (hex16 env.timecmp)]
  ++ (if riscv_cpu_is_32bit env then
        [scalar_line "mstatush " (hex16 ((env.mstatus % U64) >>> 32))]
      else [])
  ++ (List.range 32).map
       (fun i => scalar_line (riscv_int_regnames.getD i "") (hex16 (env.gpr.getD i 0)))
  ++ (List.range 32).map
       (fun i => scalar_line (riscv_fpr_regnames.getD i "") (hex16 (env.fpr.getD i 0)))
  ++ (if cpu.cfg.pmp then
        (List.range MAX_RISCV_PMPS).map
          (fun i => "pmpaddr_" ++ Nat.repr i ++ " " ++ hex16 (pmpaddr_csr_read env i))
        ++ (List.range (MAX_RISCV_PMPS / 4)).map
          (fun i => "pmpcfg_" ++ Nat.repr i ++ " " ++ hex16 (pmpcfg_csr_read env i))
      else [])

/-! ## Deserialisation: riscv_cpu_load_state (cpu.c lines 396-783).
The input file is abstracted to its list of lines.  The C code stores each
fgets result in the stack buffer str_line and never tests the fgets return
value, so at end of file the buffer keeps its previous (stale) contents; the
Reader models exactly that.  Each successfully converted value is written
into env immediately (no rollback); the first conversion that does not yield
the expected sscanf return count prints "Error: failed to read <field>" and
jumps to the end of the function. -/

structure Reader where
  lines : List String
  buf : String
  deriving DecidableEq, Repr

/-- fgets into str_line: at end of file the buffer is left unchanged. -/
def fgets (r : Reader) : Reader :=
  match r.lines with
  | [] => r
  | l :: ls => ⟨ls, l⟩

/-- The scalar records of load_state in source order: sscanf tag (also the
name in the error message) and the env field it is stored into.  The %lx
destinations are 64-bit, the features destination (%x) is 32-bit. -/
def load_scalar_fields : List (String × (CPURISCVState → Nat → CPURISCVState)) :=
  [("pc", fun env v => { env with pc := v % U64 }),
   ("mhartid", fun env v => { env with mhartid := v % U64 }),
   ("mstatus", fun env v => { env with mstatus := v % U64 }),
   ("mip", fun env v => { env with mip := v % U64 }),
   ("mie", fun env v => { env with mie := v % U64 }),
   ("mideleg", fun env v => { env with mideleg := v % U64 }),
   ("medeleg", fun env v => { env with medeleg := v % U64 }),
   ("mtvec", fun env v => { env with mtvec := v % U64 }),
   ("stvec", fun env v => { env with stvec := v % U64 }),
   ("mepc", fun env v => { env with mepc := v % U64 }),
   ("sepc", fun env v => { env with sepc := v % U64 }),
   ("mcause", fun env v => { env with mcause := v % U64 }),
   ("scause", fun env v => { env with scause := v % U64 }),
   ("mtval", fun env v => { env with mtval := v % U64 }),
   ("stval", fun env v => { env with stval := v % U64 }),
   ("mscratch", fun env v => { env with mscratch := v % U64 }),
   ("sscratch", fun env v => { env with sscratch := v % U64 }),
   ("satp", fun env v => { env with satp := v % U64 }),
   ("load_res", fun env v => { env with load_res := v % U64 }),
   ("load_val", fun env v => { env with load_val := v % U64 }),
   ("frm", fun env v => { env with frm := v % U64 }),
   ("badaddr", fun env v => { env with badaddr := v % U64 }),
   ("guest_phys_fault_addr", fun env v => { env with guest_phys_fault_addr := v % U64 }),
   ("priv_ver", fun env v => { env with priv_ver := v % U64 }),
   ("vext_ver", fun env v => { env with vext_ver := v % U64 }),
   ("misa", fun env v => { env with misa := v % U64 }),
   ("misa_mask", fun env v => { env with misa_mask := v % U64 }),
   ("features", fun env v => { env with features := v % 2 ^ 32 }),
   ("priv", fun env v => { env with priv := v % U64 }),
   ("virt", fun env v => { env with virt := v % U64 }),
   ("resetvec", fun env v => { env with resetvec := v % U64 }),
   ("scounteren", fun env v => { env with scounteren := v % U64 }),
   ("mcounteren", fun env v => { env with mcounteren := v % U64 }),
   ("mfromhost", fun env v => { env with mfromhost := v % U64 }),
   ("mtohost", fun env v => { env with mtohost := v % U64 }),
   ("timecmp", fun env v => { env with timecmp := v % U64 })]

/-- Run the scalar-record sequence; stops at the first failing record with its
name. -/
def load_scalars :
    List (String × (CPURISCVState → Nat → CPURISCVState)) → Reader →
    CPURISCVState → Reader × CPURISCVState × Option String
  | [], r, env => (r, env, none)
  | (tag, set) :: rest, r, env =>
      let r' := fgets r
      match scanTagHex tag r'.buf with
      | some v => load_scalars rest r' (set env v)
      | none => (r', env, some tag)

/-- The 32-iteration gpr/fpr loops ("%s %lx": the tag is read but never
compared to anything). -/
def load_regs (upd : CPURISCVState → Nat → Nat → CPURISCVState) (label : String) :
    Nat → Nat → Reader → CPURISCVState → Reader × CPURISCVState × Option String
  | 0, _, r, env => (r, env, none)
  | k + 1, i, r, env =>
      let r' := fgets r
      match scanStrHex r'.buf with
      | some p => load_regs upd label k (i + 1) r' (upd env i p.2)
      | none => (r', env, some (label ++ "[" ++ Nat.repr i ++ "]"))

/-- The PMP record loops: the index parsed from the line is only echoed to the
debug output; the write always targets the loop index i. -/
def load_pmp (tag label : String) (wr : CPURISCVState → Nat → Nat → CPURISCVState) :
    Nat → Nat → Reader → CPURISCVState → Reader × CPURISCVState × Option String
  | 0, _, r, env => (r, env, none)
  | k + 1, i, r, env =>
      let r' := fgets r
      match scanIdxHex tag r'.buf with
      | some p => load_pmp tag label wr k (i + 1) r' (wr env i p.2)
      | none => (r', env, some (label ++ "[" ++ Nat.repr i ++ "]"))

/-- memset(&env->pmp_state, 0, sizeof(env->pmp_state)). -/
def pmp_state_zero (env : CPURISCVState) : CPURISCVState :=
  { env with
    pmp_addr := List.replicate MAX_RISCV_PMPS 0,
    pmp_cfg := List.replicate MAX_RISCV_PMPS 0,
    pmp_rule_sa := List.replicate MAX_RISCV_PMPS 0,
    pmp_rule_ea := List.replicate MAX_RISCV_PMPS 0,
    pmp_num_rules := 0 }

/-- riscv_cpu_load_state: restore one hart from the lines of a snapshot file.
Returns the hart as left by the call (partial writes kept) and the name in
the first "Error: failed to read <name>" message, if any. -/
def riscv_cpu_load_state (cpu : RISCVCPU) (lines : List String) :
    RISCVCPU × Option String :=
  let r0 : Reader := ⟨lines, ""⟩
  match load_scalars load_scalar_fields r0 cpu.env with
  | (_, env, some e) => ({ cpu with env := env }, some e)
  | (r1, env1, none) =>
    -- 32-bit harts: the mstatush record is parsed into &env->mstatus,
    -- overwriting the full mstatus value with the high half.
    let step2 : Reader × CPURISCVState × Option String :=
      if riscv_cpu_is_32bit env1 then
        let r' := fgets r1
        match scanTagHex "mstatush" r'.buf with
        | some v => (r', { env1 with mstatus := v % U64 }, none)
        | none => (r', env1, some "mstatush")
      else (r1, env1, none)
    match step2 with
    | (_, env, some e) => ({ cpu with env := env }, some e)
    | (r2, env2, none) =>
      match load_regs (fun env i v => { env with gpr := env.gpr.set i (v % U64) })
          "gpr" 32 0 r2 env2 with
      | (_, env, some e) => ({ cpu with env := env }, some e)
      | (r3, env3, none) =>
        match load_regs (fun env i v => { env with fpr := env.fpr.set i (v % U64) })
            "fpr" 32 0 r3 env3 with
        | (_, env, some e) => ({ cpu with env := env }, some e)
        | (r4, env4, none) =>
          if cpu.cfg.pmp then
            let env5 := pmp_state_zero env4
            match load_pmp "pmpaddr_" "pmpaddr" pmpaddr_csr_write
                MAX_RISCV_PMPS 0 r4 env5 with
            | (_, env, some e) => ({ cpu with env := env }, some e)
            | (r5, env6, none) =>
              match load_pmp "pmpcfg_" "pmpcfg" pmpcfg_csr_write
                  (MAX_RISCV_PMPS / 4) 0 r5 env6 with
              | (_, env, some e) => ({ cpu with env := env }, some e)
              | (_, env7, none) =>
                let env8 := (List.range MAX_RISCV_PMPS).foldl pmp_update_rule_addr env7
                ({ cpu with env := pmp_update_rule_nums env8 }, none)
          else ({ cpu with env := env4 }, none)

/-! ## Realize: riscv_cpu_realize (cpu.c lines 858-1035) -/

inductive ConfigError where
  | unsupportedPrivSpec (s : String)
  | incompatibleIE
  | missingIE
  | unsupportedBextSpec (s : String)
  | vlenNotPow2
  | vlenOutOfRange
  | elenNotPow2
  | elenOutOfRange
  | unsupportedVextSpec (s : String)
  deriving DecidableEq, Repr

/-- is_power_of_2 from qemu/host-utils.h. -/
def is_power_of_2 (v : Nat) : Bool :=
  v != 0 && (v &&& (v - 1)) == 0

/-- Result of realize: the hart as left by the call (the C code mutates env
and cfg in place and returns early on error), the error if any, and the
diagnostics emitted through warn_report / qemu_log. -/
structure RealizeResult where
  cpu : RISCVCPU
  err : Option ConfigError
  log : List String
  deriving DecidableEq, Repr

/-- The tail of riscv_cpu_realize from `set_misa(env, target_misa)` (cpu.c
line 1026) onward: finalize misa, then cpu_reset(cs) which dispatches to
riscv_cpu_reset. -/
def riscv_cpu_realize_finish (ei : Int) (env : CPURISCVState) (cfg : RISCVCPUConfig)
    (target_misa : Nat) (log : List String) : RealizeResult :=
  ⟨riscv_cpu_reset ⟨set_misa env target_misa, cfg, ei⟩, none, log⟩

/-- The ext_v section of riscv_cpu_realize (cpu.c lines 986-1024). -/
def riscv_cpu_realize_vpart (ei : Int) (env : CPURISCVState) (cfg : RISCVCPUConfig)
    (target_misa : Nat) (log : List String) : RealizeResult :=
  if cfg.ext_v then
    let target_misa := target_misa ||| RVV
    if !is_power_of_2 cfg.vlen then
      ⟨⟨env, cfg, ei⟩, some ConfigError.vlenNotPow2, log⟩
    else if cfg.vlen > RV_VLEN_MAX ∨ cfg.vlen < 128 then
      ⟨⟨env, cfg, ei⟩, some ConfigError.vlenOutOfRange, log⟩
    else if !is_power_of_2 cfg.elen then
      ⟨⟨env, cfg, ei⟩, some ConfigError.elenNotPow2, log⟩
    else if cfg.elen > 64 ∨ cfg.vlen < 8 then
      -- the second disjunct tests vlen, not elen, exactly as the source does
      ⟨⟨env, cfg, ei⟩, some ConfigError.elenOutOfRange, log⟩
    else
      match cfg.vext_spec with
      | some s =>
          if s = "v0.7.1" then
            riscv_cpu_realize_finish ei
              { env with vext_ver := VEXT_VERSION_0_07_1 } cfg target_misa log
          else ⟨⟨env, cfg, ei⟩, some (ConfigError.unsupportedVextSpec s), log⟩
      | none =>
          riscv_cpu_realize_finish ei
            { env with vext_ver := VEXT_VERSION_0_07_1 } cfg target_misa
            (log ++ ["vector version is not specified, use the default value v0.7.1"])
  else riscv_cpu_realize_finish ei env cfg target_misa log

/-- The ext_b section of riscv_cpu_realize (cpu.c lines 968-985), falling
through into the ext_v section. -/
def riscv_cpu_realize_bpart (ei : Int) (env : CPURISCVState) (cfg : RISCVCPUConfig)
    (target_misa : Nat) (log : List String) : RealizeResult :=
  if cfg.ext_b then
    let target_misa := target_misa ||| RVB
    match cfg.bext_spec with
    | some s =>
        if s = "v0.93" then
          riscv_cpu_realize_vpart ei
            { env with bext_ver := BEXT_VERSION_0_93_0 } cfg target_misa log
        else ⟨⟨env, cfg, ei⟩, some (ConfigError.unsupportedBextSpec s), log⟩
    | none =>
        riscv_cpu_realize_vpart ei
          { env with bext_ver := BEXT_VERSION_0_93_0 } cfg target_misa
          (log ++ ["bitmanip version is not specified, use the default value v0.93"])
  else riscv_cpu_realize_vpart ei env cfg target_misa log

/-- The body of riscv_cpu_realize after the privilege-spec string has been
decoded into priv_version.  cpu_exec_realizefn, gdb registration,
qemu_init_vcpu and mcc->parent_realize touch nothing modelled here.
target_misa is read from env->misa at function entry (cpu.c line 867). -/
def riscv_cpu_realize_rest (cpu0 : RISCVCPU) (priv_version : Nat) : RealizeResult :=
  let env := cpu0.env
  let target_misa := env.misa
  let env := { env with priv_ver := priv_version,
                        bext_ver := BEXT_VERSION_0_93_0,
                        vext_ver := VEXT_VERSION_0_07_1 }
  let env := if cpu0.cfg.mmu then
      { env with features := env.features ||| 2 ^ RISCV_FEATURE_MMU } else env
  let env := if cpu0.cfg.pmp then
      let env := { env with features := env.features ||| 2 ^ RISCV_FEATURE_PMP }
      if cpu0.cfg.epmp then
        { env with features := env.features ||| 2 ^ RISCV_FEATURE_EPMP } else env
    else env
  let env := { env with resetvec := cpu0.cfg.resetvec }
  if env.misa = RV32 ∨ env.misa = RV64 then
    if cpu0.cfg.ext_i && cpu0.cfg.ext_e then
      ⟨{ cpu0 with env := env }, some ConfigError.incompatibleIE, []⟩
    else if !cpu0.cfg.ext_i && !cpu0.cfg.ext_e then
      ⟨{ cpu0 with env := env }, some ConfigError.missingIE, []⟩
    else
      -- "Setting G will also set IMAFD" (non-fatal, cfg mutated in place)
      let gfix := cpu0.cfg.ext_g &&
        !(cpu0.cfg.ext_i && cpu0.cfg.ext_m && cpu0.cfg.ext_a &&
          cpu0.cfg.ext_f && cpu0.cfg.ext_d)
      let cfg := if gfix then
          { cpu0.cfg with ext_i := true, ext_m := true, ext_a := true,
                          ext_f := true, ext_d := true }
        else cpu0.cfg
      let log := if gfix then ["Setting G will also set IMAFD"] else []
      let target_misa := target_misa ||| (if cfg.ext_i then RVI else 0)
      let target_misa := target_misa ||| (if cfg.ext_e then RVE else 0)
      let target_misa := target_misa ||| (if cfg.ext_m then RVM else 0)
      let target_misa := target_misa ||| (if cfg.ext_a then RVA else 0)
      let target_misa := target_misa ||| (if cfg.ext_f then RVF else 0)
      let target_misa := target_misa ||| (if cfg.ext_d then RVD else 0)
      let target_misa := target_misa ||| (if cfg.ext_c then RVC else 0)
      let target_misa := target_misa ||| (if cfg.ext_s then RVS else 0)
      let target_misa := target_misa ||| (if cfg.ext_u then RVU else 0)
      let target_misa := target_misa ||| (if cfg.ext_h then RVH else 0)
      riscv_cpu_realize_bpart cpu0.exception_index env cfg target_misa log
  else
    ⟨riscv_cpu_reset { cpu0 with env := env }, none, []⟩

/-- riscv_cpu_realize.  An unsupported privilege-spec string fails before any
field of env has been written. -/
def riscv_cpu_realize (cpu : RISCVCPU) : RealizeResult :=
  match cpu.cfg.priv_spec with
  | some s =>
      if s = "v1.11.0" then riscv_cpu_realize_rest cpu PRIV_VERSION_1_11_0
      else if s = "v1.10.0" then riscv_cpu_realize_rest cpu PRIV_VERSION_1_10_0
      else ⟨cpu, some (ConfigError.unsupportedPrivSpec s), []⟩
  | none => riscv_cpu_realize_rest cpu PRIV_VERSION_1_11_0

/-! ## Reset controller: d_reset_write (sifive_d_reset.c lines 46-83) -/

def FINISHER_FAIL : Nat := 0x3333
def FINISHER_PASS : Nat := 0x5555
def FINISHER_RESET : Nat := 0x7777

/-- Observable effect of one write to the reset-controller window. -/
inductive DResetEffect where
  | exit (code : Nat)
  | systemReset
  | update (harts : List RISCVCPU)
  | fault
  | logged
  deriving DecidableEq, Repr

/-- d_reset_write: addr selects the target hart (addr >> 2), addr 0 marks the
request system-wide; the low 16 bits of the value select the action and the
next 16 bits carry the FAIL exit code.  `fault` models cpu_reset of the NULL
pointer qemu_get_cpu returns for an out-of-range hart id; `logged` is the
diagnostic-only fall-through for unknown status codes.
cpu_synchronize_post_reset only refreshes an accelerator-side cache of the
already-reset state.  The controller holds no state between writes. -/
def d_reset_write (harts : List RISCVCPU) (addr val : Nat) : DResetEffect :=
  let system_wide := addr = 0
  let hartid := addr >>> 2
  let status := val &&& 0xffff
  let code := (val >>> 16) &&& 0xffff
  if status = FINISHER_FAIL then DResetEffect.exit code
  else if status = FINISHER_PASS then DResetEffect.exit 0
  else if status = FINISHER_RESET then
    if system_wide then DResetEffect.systemReset
    else if h : hartid < harts.length then
      DResetEffect.update (harts.set hartid (riscv_cpu_reset (harts.get ⟨hartid, h⟩)))
    else DResetEffect.fault
  else DResetEffect.logged

/-! ## CPU model instance-init functions and concrete sample harts -/

/-- rv64_base_cpu_init: misa carries only the XLEN bit; the extension bits are
filled in by realize. -/
def rv64_base_cpu_init (env : CPURISCVState) : CPURISCVState :=
  set_misa env RV64

/-- rv64_sifive_u_cpu_init: a named CPU model whose misa is preset. -/
def rv64_sifive_u_cpu_init (env : CPURISCVState) : CPURISCVState :=
  { set_misa env (RV64 ||| RVI ||| RVM ||| RVA ||| RVF ||| RVD ||| RVC ||| RVS ||| RVU)
    with priv_ver := PRIV_VERSION_1_10_0 }

/-- The qdev property defaults of riscv_cpu_properties (cpu.c lines 1044-1072). -/
def cfg_default : RISCVCPUConfig :=
  { ext_i := true, ext_e := false, ext_g := true, ext_m := true, ext_a := true,
    ext_f := true, ext_d := true, ext_c := true, ext_s := true, ext_u := true,
    ext_b := false, ext_h := false, ext_v := false,
    priv_spec := none, bext_spec := none, vext_spec := none,
    vlen := 128, elen := 64, mmu := true, pmp := true, epmp := false,
    resetvec := DEFAULT_RSTVEC }

/-- A fully zeroed register file, as construct-time allocation leaves it. -/
def env_zero : CPURISCVState :=
  { pc := 0, mhartid := 0, mstatus := 0, mip := 0, mie := 0, mideleg := 0,
    medeleg := 0, mtvec := 0, stvec := 0, mepc := 0, sepc := 0, mcause := 0,
    scause := 0, mtval := 0, stval := 0, mscratch := 0, sscratch := 0,
    satp := 0, load_res := 0, load_val := 0, frm := 0, badaddr := 0,
    guest_phys_fault_addr := 0, priv_ver := 0, bext_ver := 0, vext_ver := 0,
    misa := 0, misa_mask := 0, features := 0, priv := 0, virt := 0,
    resetvec := 0, scounteren := 0, mcounteren := 0, mfromhost := 0,
    mtohost := 0, timecmp := 0,
    gpr := List.replicate 32 0, fpr := List.replicate 32 0,
    pmp_addr := List.replicate MAX_RISCV_PMPS 0,
    pmp_cfg := List.replicate MAX_RISCV_PMPS 0,
    pmp_rule_sa := List.replicate MAX_RISCV_PMPS 0,
    pmp_rule_ea := List.replicate MAX_RISCV_PMPS 0,
    pmp_num_rules := 0, two_stage_lookup := false,
    hstatus := 0, vsstatus := 0, htval := 0, vscause := 0, mtval2 := 0,
    hideleg := 0, hedeleg := 0, vstvec := 0, vsepc := 0, vsscratch := 0,
    vstval := 0, default_nan_mode := false }

/-- A base-model hart before realize. -/
def hart_base : RISCVCPU :=
  ⟨rv64_base_cpu_init env_zero, cfg_default, RISCV_EXCP_NONE⟩

/-- A sifive-u-model hart (misa preset) before realize. -/
def hart_u : RISCVCPU :=
  ⟨rv64_sifive_u_cpu_init { env_zero with resetvec := DEFAULT_RSTVEC },
   cfg_default, RISCV_EXCP_NONE⟩

/-- A concrete realized, running source hart: reset state with x1 = 0x1234 and
mtval = 5. -/
def hart_S : RISCVCPU :=
  let c := riscv_cpu_reset hart_u
  { c with env := { c.env with gpr := (List.replicate 32 0).set 1 0x1234,
                               mtval := 5 } }

/-- A freshly reset destination hart of the same configuration. -/
def hart_T : RISCVCPU := riscv_cpu_reset hart_u

/-! ## Spec-side definition for the misa refinement claim -/

/-- Written from the spec's words (§8 / claim C6): the union of the requested
extension bits, together with the I, M, A, F, D bits forced on when G is
requested, over the RV64 base. -/
def spec_requested_misa (cfg : RISCVCPUConfig) : Nat :=
  RV64
  ||| (if cfg.ext_i || cfg.ext_g then RVI else 0)
  ||| (if cfg.ext_e then RVE else 0)
  ||| (if cfg.ext_m || cfg.ext_g then RVM else 0)
  ||| (if cfg.ext_a || cfg.ext_g then RVA else 0)
  ||| (if cfg.ext_f || cfg.ext_g then RVF else 0)
  ||| (if cfg.ext_d || cfg.ext_g then RVD else 0)
  ||| (if cfg.ext_c then RVC else 0)
  ||| (if cfg.ext_s then RVS else 0)
  ||| (if cfg.ext_u then RVU else 0)
  ||| (if cfg.ext_h then RVH else 0)
  ||| (if cfg.ext_b then RVB else 0)
  ||| (if cfg.ext_v then RVV else 0)

/-! ## Shared lemmas about the snapshot codec -/

lemma scalar_line_data (name body : String) :
    (scalar_line name body).data = ' ' :: (name.data ++ (' ' :: body.data)) := by
  simp [scalar_line, String.data_append]

/-- The first record of every snapshot starts with a space, which the literal
"pc" of the sscanf format does not skip. -/
lemma scanTagHex_pc_scalar_line (name body : String) :
    scanTagHex "pc" (scalar_line name body) = none := by
  unfold scanTagHex
  rw [scalar_line_data]
  rfl

lemma load_state_cons_scalar_fail (cpu : RISCVCPU) (l : String) (ls : List String)
    (h : scanTagHex "pc" l = none) :
    riscv_cpu_load_state cpu (l :: ls) = (cpu, some "pc") := by
  unfold riscv_cpu_load_state load_scalar_fields load_scalars
  simp [fgets, h]

/-- Restoring any genuinely serialized snapshot into any hart aborts at the
very first record with "failed to read pc" and leaves the hart unchanged. -/
lemma restore_of_dump_aborts (T S : RISCVCPU) :
    riscv_cpu_load_state T (riscv_cpu_dump_migrate S) = (T, some "pc") := by
  obtain ⟨l, ls, hl, hdump⟩ :
      ∃ l ls, l = scalar_line "pc      " (hex16 S.env.pc) ∧
        riscv_cpu_dump_migrate S = l :: ls := ⟨_, _, rfl, rfl⟩
  rw [hdump]
  exact load_state_cons_scalar_fail T l ls (hl ▸ scanTagHex_pc_scalar_line _ _)

/-! ## C1 -/

/-- C1: the round-trip law restore(serialize(S)) == S FAILS on the code: the
serializer writes every scalar record with a leading space which the loader's
literal sscanf tag does not skip, so restore aborts at the first record ("pc")
and the destination hart keeps its pre-restore contents — here x1 of the
restored hart differs from x1 of S. -/
theorem c1_roundtrip_broken :
    riscv_cpu_load_state hart_T (riscv_cpu_dump_migrate hart_S) = (hart_T, some "pc") ∧
    (riscv_cpu_load_state hart_T (riscv_cpu_dump_migrate hart_S)).1.env.gpr.getD 1 0 ≠
      hart_S.env.gpr.getD 1 0 := by
  refine ⟨restore_of_dump_aborts hart_T hart_S, ?_⟩
  rw [restore_of_dump_aborts hart_T hart_S]
  decide

/-! ## C3 -/

/-- hart_S's snapshot with exactly one record's tag altered to a non-matching
name: the general-purpose-register record of x1 (position 37). -/
def corrupt_snapshot : List String :=
  (riscv_cpu_dump_migrate hart_S).set 37 (scalar_line "BOGUS" (hex16 0x1234))

/-- The same corrupted snapshot with the leading spaces removed from every
line, isolating the loader's tag handling from its leading-space defect. -/
def corrupt_snapshot_despaced : List String :=
  corrupt_snapshot.map (fun l => String.mk (skipWs l.data))

/-- C3: tag corruption is NOT reported as the claim states.  Restoring the
corrupted snapshot fails at the FIRST record ("pc", the leading-space parse
defect), not at the corrupted record; and even with the leading spaces
stripped, the loader accepts the corrupted gpr record silently (gpr tags are
parsed with %s and never compared to the expected register name) and runs to
completion with no error. -/
theorem c3_tag_corruption_not_detected :
    riscv_cpu_load_state hart_T corrupt_snapshot = (hart_T, some "pc") ∧
    (riscv_cpu_load_state hart_T corrupt_snapshot_despaced).2 = none ∧
    (riscv_cpu_load_state hart_T corrupt_snapshot_despaced).1.env.gpr.getD 1 0 =
      0x1234 := by
  refine ⟨?_, by decide, by decide⟩
  decide

/-! ## C4 -/

/-- C4 counterexample: a single restore call can change hart_id — restoring a
record stream that carries mhartid 5 into a hart whose mhartid is 0 leaves
the hart with mhartid 5 (the loader stores the snapshot's mhartid record
directly into env->mhartid). -/
theorem c4_restore_changes_hart_id :
    (riscv_cpu_load_state hart_T ["pc 0", "mhartid 5"]).1.env.mhartid = 5 ∧
    hart_T.env.mhartid = 0 := by
  constructor <;> decide

/-- C4 amended: reset and set_pc never change mhartid or misa (hence not the
xlen bits of misa); snapshot restore in general overwrites mhartid and misa
with the snapshot's records, but restoring a snapshot actually produced by
the serializer leaves the hart unchanged, because it aborts at the first
record. -/
theorem c4_identity_preserved :
    ∀ (c S T : RISCVCPU) (v : Nat),
    (riscv_cpu_reset c).env.mhartid = c.env.mhartid ∧
    (riscv_cpu_reset c).env.misa = c.env.misa ∧
    (riscv_cpu_set_pc c v).env.mhartid = c.env.mhartid ∧
    (riscv_cpu_set_pc c v).env.misa = c.env.misa ∧
    riscv_cpu_load_state T (riscv_cpu_dump_migrate S) = (T, some "pc") := by
  intro c S T v
  exact ⟨rfl, rfl, rfl, rfl, restore_of_dump_aborts T S⟩

/-! ## C2 -/

/-- C2 counterexample: reset does NOT clear the tval, scratch, or
virtual-supervisor registers.  hart_S has mtval = 5; after reset mtval is
still 5, contradicting the claim that reset clears the tval registers. -/
theorem c2_reset_leaves_mtval :
    (riscv_cpu_reset hart_S).env.mtval = 5 ∧
    (riscv_cpu_reset { hart_S with
        env := { hart_S.env with sscratch := 7, vscause := 9 } }).env.sscratch = 7 ∧
    (riscv_cpu_reset { hart_S with
        env := { hart_S.env with sscratch := 7, vscause := 9 } }).env.vscause = 9 := by
  refine ⟨by decide, by decide, by decide⟩

/-- C2 amended: reset establishes Machine mode, clears MIE/MPRV, clears the
cause, epc and trap-vector registers of the machine and supervisor levels,
loads pc from the reset vector, clears the two-stage-lookup flag and satp,
fully zeroes PMP raw and derived state, clears the pending-exception index,
sets the load reservation to its all-ones sentinel and selects default NaN
mode — but it leaves the tval and scratch registers and all
virtual-supervisor registers unchanged. -/
theorem c2_reset_establishes :
    ∀ c : RISCVCPU,
    (riscv_cpu_reset c).env.priv = PRV_M ∧
    (riscv_cpu_reset c).env.mstatus &&& (MSTATUS_MIE ||| MSTATUS_MPRV) = 0 ∧
    (riscv_cpu_reset c).env.mcause = 0 ∧
    (riscv_cpu_reset c).env.pc = c.env.resetvec ∧
    (riscv_cpu_reset c).env.two_stage_lookup = false ∧
    (riscv_cpu_reset c).env.satp = 0 ∧
    (riscv_cpu_reset c).env.scause = 0 ∧
    (riscv_cpu_reset c).env.sepc = 0 ∧
    (riscv_cpu_reset c).env.stvec = 0 ∧
    (riscv_cpu_reset c).env.mepc = 0 ∧
    (riscv_cpu_reset c).env.mtvec = 0 ∧
    (riscv_cpu_reset c).env.pmp_addr = List.replicate MAX_RISCV_PMPS 0 ∧
    (riscv_cpu_reset c).env.pmp_cfg = List.replicate MAX_RISCV_PMPS 0 ∧
    (riscv_cpu_reset c).env.pmp_rule_sa = List.replicate MAX_RISCV_PMPS 0 ∧
    (riscv_cpu_reset c).env.pmp_rule_ea = List.replicate MAX_RISCV_PMPS 0 ∧
    (riscv_cpu_reset c).env.pmp_num_rules = 0 ∧
    (riscv_cpu_reset c).exception_index = RISCV_EXCP_NONE ∧
    (riscv_cpu_reset c).env.load_res = U64MAX ∧
    (riscv_cpu_reset c).env.default_nan_mode = true ∧
    (riscv_cpu_reset c).env.mtval = c.env.mtval ∧
    (riscv_cpu_reset c).env.stval = c.env.stval ∧
    (riscv_cpu_reset c).env.mscratch = c.env.mscratch ∧
    (riscv_cpu_reset c).env.sscratch = c.env.sscratch ∧
    (riscv_cpu_reset c).env.vscause = c.env.vscause ∧
    (riscv_cpu_reset c).env.vsepc = c.env.vsepc ∧
    (riscv_cpu_reset c).env.vstvec = c.env.vstvec ∧
    (riscv_cpu_reset c).env.vsscratch = c.env.vsscratch ∧
    (riscv_cpu_reset c).env.vstval = c.env.vstval := by
  intro c
  have hmask : (U64MAX ^^^ (MSTATUS_MIE ||| MSTATUS_MPRV)) &&&
      (MSTATUS_MIE ||| MSTATUS_MPRV) = 0 := by decide
  refine ⟨rfl, ?_, rfl, rfl, rfl, rfl, rfl, rfl, rfl, rfl, rfl, rfl, rfl, rfl,
    rfl, rfl, rfl, rfl, rfl, rfl, rfl, rfl, rfl, rfl, rfl, rfl, rfl, rfl⟩
  show (c.env.mstatus &&& (U64MAX ^^^ (MSTATUS_MIE ||| MSTATUS_MPRV))) &&&
      (MSTATUS_MIE ||| MSTATUS_MPRV) = 0
  rw [Nat.land_assoc, hmask]
  simp

/-! ## C8 -/

/-- C8: a RESET-status write at offset 4*t (t ≥ 1) resets exactly hart t, and
every other hart is unchanged. -/
theorem c8_d_reset_targets_one_hart (harts : List RISCVCPU) (t : Nat)
    (h1 : 1 ≤ t) (h2 : t < harts.length) :
    d_reset_write harts (4 * t) 0x00007777 =
      DResetEffect.update (harts.set t (riscv_cpu_reset (harts.get ⟨t, h2⟩))) ∧
    ∀ u, u ≠ t →
      (harts.set t (riscv_cpu_reset (harts.get ⟨t, h2⟩)))[u]? = harts[u]? := by
  constructor
  · have haddr : ¬ (4 * t = 0) := by omega
    have hsh : (4 * t) >>> 2 = t := by
      rw [Nat.shiftRight_eq_div_pow]
      omega
    simp only [d_reset_write, hsh]
    norm_num [FINISHER_FAIL, FINISHER_PASS, FINISHER_RESET, haddr, h2]
    rw [if_neg (by decide), if_neg (by decide), if_pos (by decide)]
  · intro u hu
    exact List.getElem?_set_ne (fun h => hu h.symm)

/-- C8 witness: a 4-hart machine, RESET written at offset 8 resets hart 2 and
leaves harts 0, 1 and 3 unchanged. -/
theorem c8_d_reset_targets_one_hart_witness :
    d_reset_write [hart_u, hart_u, hart_u, hart_u] (4 * 2) 0x00007777 =
      DResetEffect.update ([hart_u, hart_u, hart_u, hart_u].set 2
        (riscv_cpu_reset ([hart_u, hart_u, hart_u, hart_u].get ⟨2, by decide⟩))) := by
  exact (c8_d_reset_targets_one_hart [hart_u, hart_u, hart_u, hart_u] 2
    (by decide) (by decide)).1

/-! ## C9 -/

/-- C9: a write whose low 16 bits are FAIL terminates the process with exit
code bits[31:16]; a write whose low 16 bits are PASS terminates with exit
code 0, regardless of the upper bits or of the offset. -/
theorem c9_finisher_exit (harts : List RISCVCPU) (addr val : Nat) :
    (val &&& 0xffff = FINISHER_FAIL →
      d_reset_write harts addr val = DResetEffect.exit ((val >>> 16) &&& 0xffff)) ∧
    (val &&& 0xffff = FINISHER_PASS →
      d_reset_write harts addr val = DResetEffect.exit 0) := by
  constructor <;> intro h <;>
    simp [d_reset_write, h, FINISHER_FAIL, FINISHER_PASS]

/-- C9 witness: value 0x00083333 exits with code 8; value 0x00005555 exits
with code 0. -/
theorem c9_finisher_exit_witness :
    d_reset_write [hart_u] 4 0x00083333 = DResetEffect.exit 8 ∧
    d_reset_write [hart_u] 4 0x00005555 = DResetEffect.exit 0 := by
  constructor
  · have h := (c9_finisher_exit [hart_u] 4 0x00083333).1 (by decide)
    simpa using h
  · exact (c9_finisher_exit [hart_u] 4 0x00005555).2 (by decide)

/-! ## C5, C6, C7, C10: realize-time configuration -/

lemma misa_ite (c : Prop) [Decidable c] (a b : CPURISCVState) :
    (if c then a else b).misa = if c then a.misa else b.misa := by
  split <;> rfl

/-- A base CPU requesting both I and E. -/
def hart_ie_both : RISCVCPU :=
  ⟨rv64_base_cpu_init env_zero,
   { cfg_default with ext_i := true, ext_e := true }, RISCV_EXCP_NONE⟩

/-- C5 counterexample: realize on an I-and-E request does fail, but the failed
realize has already modified configuration fields of the hart — the feature
bits and the privilege-version field differ from their pre-realize values, so
the hart IS left half-configured, contrary to the claim. -/
theorem c5_failed_realize_modifies_hart :
    (riscv_cpu_realize hart_ie_both).err = some ConfigError.incompatibleIE ∧
    (riscv_cpu_realize hart_ie_both).cpu.env.features ≠ hart_ie_both.env.features ∧
    (riscv_cpu_realize hart_ie_both).cpu.env.priv_ver ≠ hart_ie_both.env.priv_ver := by
  refine ⟨by decide, by decide, by decide⟩

/-- The exact hart state a failed I/E check leaves behind: by the time the
check at cpu.c:914-924 fires, the version fields, the feature bits and the
reset vector have already been written into env; misa, misa_mask and all
other fields (pc, both register files, ...) are untouched, and cfg is not yet
G-corrected. -/
lemma realize_rest_ie_violation (env : CPURISCVState) (cfg : RISCVCPUConfig) (ei : Int)
    (pv : Nat) (hmisa : env.misa = RV64) (hie : cfg.ext_i = cfg.ext_e) :
    riscv_cpu_realize_rest ⟨env, cfg, ei⟩ pv =
      ⟨⟨{ env with
            priv_ver := pv,
            bext_ver := BEXT_VERSION_0_93_0,
            vext_ver := VEXT_VERSION_0_07_1,
            features :=
              if cfg.pmp then
                (if cfg.epmp then
                  ((if cfg.mmu then env.features ||| 2 ^ RISCV_FEATURE_MMU else env.features)
                    ||| 2 ^ RISCV_FEATURE_PMP) ||| 2 ^ RISCV_FEATURE_EPMP
                 else
                  (if cfg.mmu then env.features ||| 2 ^ RISCV_FEATURE_MMU else env.features)
                    ||| 2 ^ RISCV_FEATURE_PMP)
              else (if cfg.mmu then env.features ||| 2 ^ RISCV_FEATURE_MMU else env.features),
            resetvec := cfg.resetvec }, cfg, ei⟩,
       some (if cfg.ext_i then ConfigError.incompatibleIE else ConfigError.missingIE),
       []⟩ := by
  unfold riscv_cpu_realize_rest
  cases hmm : cfg.mmu <;> cases hpp : cfg.pmp <;> cases hep : cfg.epmp <;>
    cases hi : cfg.ext_i <;>
      simp [hmisa, RV32, RV64, hi, hie.symm.trans hi]

/-- C5 amended: on a base CPU with priv_spec absent or one of the two
supported strings, requesting I and E together (or neither) makes realize
fail with the corresponding ConfigurationError; misa, misa_mask and every
other untouched field — including pc and both register files — keep their
pre-realize values (cfg itself included), but the hart IS left partially
configured: the priv/bext/vext version fields, the mmu/pmp/epmp feature bits
and the reset vector have already been written when the check fires. -/
theorem c5_ie_violation_fails (env : CPURISCVState) (cfg : RISCVCPUConfig) (ei : Int)
    (hmisa : env.misa = RV64)
    (hps : cfg.priv_spec = none ∨ cfg.priv_spec = some "v1.11.0" ∨
           cfg.priv_spec = some "v1.10.0")
    (hie : cfg.ext_i = cfg.ext_e) :
    ((riscv_cpu_realize ⟨env, cfg, ei⟩).err = some ConfigError.incompatibleIE ∨
     (riscv_cpu_realize ⟨env, cfg, ei⟩).err = some ConfigError.missingIE) ∧
    (riscv_cpu_realize ⟨env, cfg, ei⟩).cpu.cfg = cfg ∧
    (riscv_cpu_realize ⟨env, cfg, ei⟩).cpu.env =
      { env with
          priv_ver := if cfg.priv_spec = some "v1.10.0" then PRIV_VERSION_1_10_0
                      else PRIV_VERSION_1_11_0,
          bext_ver := BEXT_VERSION_0_93_0,
          vext_ver := VEXT_VERSION_0_07_1,
          features :=
            if cfg.pmp then
              (if cfg.epmp then
                ((if cfg.mmu then env.features ||| 2 ^ RISCV_FEATURE_MMU else env.features)
                  ||| 2 ^ RISCV_FEATURE_PMP) ||| 2 ^ RISCV_FEATURE_EPMP
               else
                (if cfg.mmu then env.features ||| 2 ^ RISCV_FEATURE_MMU else env.features)
                  ||| 2 ^ RISCV_FEATURE_PMP)
            else (if cfg.mmu then env.features ||| 2 ^ RISCV_FEATURE_MMU else env.features),
          resetvec := cfg.resetvec } := by
  have key := fun pv => realize_rest_ie_violation env cfg ei pv hmisa hie
  rcases hps with hps | hps | hps
  · unfold riscv_cpu_realize
    rw [hps]
    dsimp only
    rw [key PRIV_VERSION_1_11_0]
    refine ⟨by cases hi : cfg.ext_i <;> simp [hi], rfl, ?_⟩
    rw [if_neg (show ¬ (none : Option String) = some "v1.10.0" by decide)]
  · unfold riscv_cpu_realize
    rw [hps]
    dsimp only
    rw [if_pos rfl, key PRIV_VERSION_1_11_0]
    refine ⟨by cases hi : cfg.ext_i <;> simp [hi], rfl, ?_⟩
    rw [if_neg (show ¬ (some "v1.11.0" : Option String) = some "v1.10.0" by decide)]
  · unfold riscv_cpu_realize
    rw [hps]
    dsimp only
    rw [if_neg (show ¬ ("v1.10.0" : String) = "v1.11.0" by decide), if_pos rfl,
        key PRIV_VERSION_1_10_0]
    refine ⟨by cases hi : cfg.ext_i <;> simp [hi], rfl, ?_⟩
    rw [if_pos (show (some "v1.10.0" : Option String) = some "v1.10.0" from rfl)]

/-- C5 witness: the default bundle with both I and E fails with
incompatibleIE while misa and the floating-point register file are untouched. -/
theorem c5_ie_violation_fails_witness :
    ((riscv_cpu_realize ⟨rv64_base_cpu_init env_zero,
        { cfg_default with ext_i := true, ext_e := true }, RISCV_EXCP_NONE⟩).err =
          some ConfigError.incompatibleIE ∨
     (riscv_cpu_realize ⟨rv64_base_cpu_init env_zero,
        { cfg_default with ext_i := true, ext_e := true }, RISCV_EXCP_NONE⟩).err =
          some ConfigError.missingIE) ∧
    (riscv_cpu_realize ⟨rv64_base_cpu_init env_zero,
        { cfg_default with ext_i := true, ext_e := true }, RISCV_EXCP_NONE⟩).cpu.env.misa =
      (rv64_base_cpu_init env_zero).misa ∧
    (riscv_cpu_realize ⟨rv64_base_cpu_init env_zero,
        { cfg_default with ext_i := true, ext_e := true }, RISCV_EXCP_NONE⟩).cpu.env.fpr =
      (rv64_base_cpu_init env_zero).fpr := by
  have h := c5_ie_violation_fails (rv64_base_cpu_init env_zero)
    { cfg_default with ext_i := true, ext_e := true } RISCV_EXCP_NONE rfl (Or.inl rfl) rfl
  refine ⟨h.1, ?_, ?_⟩ <;> rw [h.2.2]

set_option maxHeartbeats 4000000

/-- C6: on a base CPU with default version specs and default vector geometry,
every flag bundle with exactly one of I/E realizes successfully and the
finalized misa (and misa_mask) is exactly the union of the requested
extension bits, with I, M, A, F, D forced on when G is requested
(spec_requested_misa). -/
theorem c6_valid_bundle_realize (env : CPURISCVState) (cfg : RISCVCPUConfig) (ei : Int)
    (hmisa : env.misa = RV64) (hxor : cfg.ext_i ≠ cfg.ext_e)
    (hps : cfg.priv_spec = none) (hbs : cfg.bext_spec = none)
    (hvs : cfg.vext_spec = none) (hvl : cfg.vlen = 128) (hel : cfg.elen = 64) :
    (riscv_cpu_realize ⟨env, cfg, ei⟩).err = none ∧
    (riscv_cpu_realize ⟨env, cfg, ei⟩).cpu.env.misa = spec_requested_misa cfg ∧
    (riscv_cpu_realize ⟨env, cfg, ei⟩).cpu.env.misa_mask = spec_requested_misa cfg := by
  rcases cfg with ⟨i, e, g, m, a, f, d, c2, s2, u2, b2, h2, v2, ps, bs, vs, vl, el, mm, pp, ep, rv⟩
  dsimp only at hxor hps hbs hvs hvl hel
  subst hps hbs hvs hvl hel
  have he : e = !i := by cases i <;> cases e <;> simp_all
  subst he
  have hp1 : is_power_of_2 128 = true := by decide
  have hp2 : is_power_of_2 64 = true := by decide
  cases i <;> cases g <;> cases m <;> cases a <;> cases f <;> cases d <;>
    cases b2 <;> cases v2 <;>
      simp [riscv_cpu_realize, riscv_cpu_realize_rest, riscv_cpu_realize_bpart,
            riscv_cpu_realize_vpart, riscv_cpu_realize_finish, riscv_cpu_reset,
            set_misa, spec_requested_misa, misa_ite, hmisa, hp1, hp2,
            RV32, RV64, RV_VLEN_MAX]

set_option maxHeartbeats 200000

/-- C6 witness: the default bundle realizes and yields exactly the requested
union. -/
theorem c6_valid_bundle_realize_witness :
    (riscv_cpu_realize ⟨rv64_base_cpu_init env_zero, cfg_default,
        RISCV_EXCP_NONE⟩).err = none ∧
    (riscv_cpu_realize ⟨rv64_base_cpu_init env_zero, cfg_default,
        RISCV_EXCP_NONE⟩).cpu.env.misa = spec_requested_misa cfg_default := by
  have h := c6_valid_bundle_realize (rv64_base_cpu_init env_zero) cfg_default
    RISCV_EXCP_NONE rfl (by decide) rfl rfl rfl rfl rfl
  exact ⟨h.1, h.2.1⟩

/-- A base CPU requesting the vector extension with geometry (vl, el). -/
def hart_v (vl el : Nat) : RISCVCPU :=
  ⟨rv64_base_cpu_init env_zero,
   { cfg_default with ext_v := true, vlen := vl, elen := el }, RISCV_EXCP_NONE⟩

/-- C7: vector-geometry validation.  vlen=96 is rejected (not a power of two)
and vlen=256/elen=32 is accepted, as the claim says — but elen=4, a power of
two below 8, is ACCEPTED: the lower-bound check of the source tests
`cfg.vlen < 8` instead of `cfg.elen < 8`, contradicting its own "ELEN in the
range [8, 64]" error message.  elen=128 is rejected via the upper bound. -/
theorem c7_vector_geometry :
    (riscv_cpu_realize (hart_v 128 4)).err = none ∧
    (riscv_cpu_realize (hart_v 96 64)).err = some ConfigError.vlenNotPow2 ∧
    (riscv_cpu_realize (hart_v 256 32)).err = none ∧
    (riscv_cpu_realize (hart_v 64 64)).err = some ConfigError.vlenOutOfRange ∧
    (riscv_cpu_realize (hart_v 128 128)).err = some ConfigError.elenOutOfRange := by
  refine ⟨by decide, by decide, by decide, by decide, by decide⟩

lemma realize_rest_preset (env : CPURISCVState) (cfg : RISCVCPUConfig) (ei : Int)
    (pv : Nat) (h32 : env.misa ≠ RV32) (h64 : env.misa ≠ RV64) :
    (riscv_cpu_realize_rest ⟨env, cfg, ei⟩ pv).cpu.env.misa = env.misa ∧
    (riscv_cpu_realize_rest ⟨env, cfg, ei⟩ pv).cpu.env.misa_mask = env.misa_mask ∧
    (riscv_cpu_realize_rest ⟨env, cfg, ei⟩ pv).err = none := by
  unfold riscv_cpu_realize_rest
  cases hmm : cfg.mmu <;> cases hpp : cfg.pmp <;> cases hep : cfg.epmp <;>
    simp [riscv_cpu_reset, h32, h64]

/-- C10: when the pre-realize misa is not the bare RV32 or RV64 base value
(as for the named CPU models), realize skips the whole extension block: it
cannot fail with any I/E, G, misa-accumulation or vector-geometry error (the
only possible failure is an unsupported privilege-spec string) and misa and
misa_mask are left exactly as preset. -/
theorem c10_preset_misa_skips_extension_block (c : RISCVCPU)
    (h32 : c.env.misa ≠ RV32) (h64 : c.env.misa ≠ RV64) :
    (riscv_cpu_realize c).cpu.env.misa = c.env.misa ∧
    (riscv_cpu_realize c).cpu.env.misa_mask = c.env.misa_mask ∧
    ∀ e, (riscv_cpu_realize c).err = some e →
      ∃ s, e = ConfigError.unsupportedPrivSpec s := by
  rcases c with ⟨env, cfg, ei⟩
  simp only at h32 h64
  unfold riscv_cpu_realize
  cases hps : cfg.priv_spec with
  | none =>
      obtain ⟨ha, hb, hc⟩ := realize_rest_preset env cfg ei PRIV_VERSION_1_11_0 h32 h64
      exact ⟨ha, hb, fun e he => absurd (hc ▸ he) (by simp)⟩
  | some s =>
      by_cases h11 : s = "v1.11.0"
      · obtain ⟨ha, hb, hc⟩ := realize_rest_preset env cfg ei PRIV_VERSION_1_11_0 h32 h64
        simp only [h11, if_pos rfl]
        exact ⟨ha, hb, fun e he => absurd (hc ▸ he) (by simp)⟩
      · by_cases h10 : s = "v1.10.0"
        · obtain ⟨ha, hb, hc⟩ := realize_rest_preset env cfg ei PRIV_VERSION_1_10_0 h32 h64
          dsimp only
          rw [if_neg h11, if_pos h10]
          exact ⟨ha, hb, fun e he => absurd (hc ▸ he) (by simp)⟩
        · dsimp only
          rw [if_neg h11, if_neg h10]
          exact ⟨rfl, rfl, fun e he => ⟨s, by cases he; rfl⟩⟩

/-- C10 witness: the sifive-u model's preset misa survives realize untouched. -/
theorem c10_preset_misa_witness :
    (riscv_cpu_realize hart_u).cpu.env.misa = hart_u.env.misa := by
  exact (c10_preset_misa_skips_extension_block hart_u (by decide) (by decide)).1
